import Mathlib

/-!
Verification of the On-call Slack notifier's alert-decision logic.

The JavaScript entry point (`src/index.js`) parses the `ALERT_KEYWORDS`
environment variable into a keyword list, exposes `shouldAlert(text, mentions)`
deciding whether to fire a local alert, and wires two Slack event handlers
(`app_mention` and `message`) that call it.  Those are embedded here as pure
Lean functions over `String`/`List`/`Option`, with absent/undefined JS values
modelled by `Option`.

The specification additionally describes a richer Alert Decision & Dispatch
Engine (regex patterns, channel allow/block filtering, a per-key rate limiter
and a statistics tracker) whose implementation module (`src.main`, launched by
`scripts/run.sh`) is not part of the sources; those components are modelled
from the spec text and marked as such in their doc comments.
-/

namespace Notifier

/-- JS `String.prototype.toLowerCase`, restricted to its ASCII behaviour:
lowercase every character. -/
def toLower (s : String) : String :=
  ⟨s.data.map Char.toLower⟩

/-- JS `haystack.includes(needle)`: `needle` occurs as a contiguous substring
of `haystack`. -/
def includes (haystack needle : String) : Bool :=
  decide (needle.data <:+: haystack.data)

/-- JS `String.prototype.split(sep)` with a one-character separator, on
character lists: the (possibly empty) chunks between occurrences of `sep`. -/
def splitChar (sep : Char) : List Char → List Char → List (List Char)
  | [], acc => [acc.reverse]
  | c :: cs, acc =>
      if c = sep then acc.reverse :: splitChar sep cs []
      else splitChar sep cs (c :: acc)

/-- JS `String.prototype.trim`: strip leading and trailing whitespace. -/
def trimChars (l : List Char) : List Char :=
  ((l.dropWhile Char.isWhitespace).reverse.dropWhile Char.isWhitespace).reverse

/-- Embeds `src/index.js` line 13:
`(process.env.ALERT_KEYWORDS || '').split(',').map(k => k.trim()).filter(Boolean)`.
`none` stands for an unset environment variable; `filter(Boolean)` drops the
entries that trim to the empty string. -/
def parseKeywords (env : Option String) : List String :=
  (((splitChar ',' (env.getD "").data []).map trimChars).map
    fun l => String.mk l).filter (fun k => k ≠ "")

/-- Embeds `shouldAlert(text, mentions)` from `src/index.js` lines 15-19.
The module-level `alertKeywords` binding is passed explicitly; `text` is
`Option String` so that `null`/`undefined` coerced by `(text || '')` is
`none`. -/
def shouldAlert (alertKeywords : List String) (text : Option String)
    (mentions : List String) : Bool :=
  let lower := toLower (text.getD "")
  if mentions.length > 0 then true
  else alertKeywords.any (fun k => includes lower (toLower k))

/-- The payload handed to `triggerMacAlert` by the event handlers. -/
structure MacAlert where
  title : String
  message : String
  channel : String
  ts : String
  deriving DecidableEq, Repr

/-- A Slack event as seen by the handlers: `text` is `none` when the field is
absent (or `undefined`). -/
structure SlackEvent where
  channel : String
  text : Option String
  ts : String
  deriving DecidableEq, Repr

/-- Embeds the `app_mention` handler (`src/index.js` lines 21-39): it calls
`shouldAlert(text, ['mention'])` and, on success, triggers an alert whose
message falls back to `'You were mentioned'` for empty text.  Returns the
alert payload, or `none` when no alert is triggered. -/
def handleAppMention (alertKeywords : List String) (event : SlackEvent) :
    Option MacAlert :=
  let text := event.text.getD ""
  if shouldAlert alertKeywords (some text) ["mention"] then
    some { title := "On-Call Alert"
           message := if text = "" then "You were mentioned" else text
           channel := event.channel
           ts := event.ts }
  else none

/-- Embeds the `message` handler (`src/index.js` lines 41-57): it returns
without action when the event has no `text` field, and otherwise alerts iff
`shouldAlert(text, [])`. -/
def handleMessage (alertKeywords : List String) (message : SlackEvent) :
    Option MacAlert :=
  match message.text with
  | none => none
  | some t =>
      if shouldAlert alertKeywords (some t) [] then
        some { title := "On-Call Alert", message := t
               channel := message.channel, ts := message.ts }
      else none

/-- Modelled from the spec: the Decision Engine's rule/channel/rate/statistics
components live in the `src.main` module launched by `scripts/run.sh`, which is
not among the sources; what follows is built from the spec's component design
(sections 3-4).  A compiled regex pattern is modelled as its source text
together with the search predicate it compiles to. -/
structure RuleSet where
  keywords : List String
  patterns : List (String × (String → Bool))
  allowlist : List String
  blocklist : List String
  ignoreBots : Bool

/-- Modelled from the spec: the matched-rule component of a Match Result, one
of keyword:<value>, pattern:<value>, mention, none. -/
inductive MatchReason where
  | mention : MatchReason
  | keyword : String → MatchReason
  | pattern : String → MatchReason
  | noMatch : MatchReason
  deriving DecidableEq, Repr

/-- Modelled from the spec: `Matcher.evaluate(text, isMention, ruleSet)`
(section 4.2, absent from the sources).  Mention wins immediately; otherwise
the first keyword (configured order) that occurs case-insensitively in the
text; otherwise the first pattern that matches; otherwise not matched. -/
def evaluate (rs : RuleSet) (text : String) (isMention : Bool) : MatchReason :=
  if isMention then .mention
  else
    match rs.keywords.find? (fun k => includes (toLower text) (toLower k)) with
    | some k => .keyword k
    | none =>
        match rs.patterns.find? (fun p => p.2 text) with
        | some p => .pattern p.1
        | none => .noMatch

/-- A channel as the filter sees it: identifier plus optional display name. -/
structure Channel where
  id : String
  name : Option String
  deriving DecidableEq, Repr

/-- A filter-list entry matches a channel by identifier or by name. -/
def entryMatches (entry : String) (ch : Channel) : Bool :=
  entry = ch.id || ch.name = some entry

/-- Modelled from the spec: the channel filter `allowed(channel)` (section 4.3,
absent from the sources).  Blocklist hit rejects regardless of allowlist; a
non-empty allowlist must contain the channel; otherwise allow. -/
def allowed (rs : RuleSet) (ch : Channel) : Bool :=
  if rs.blocklist.any (fun e => entryMatches e ch) then false
  else if rs.allowlist ≠ [] then rs.allowlist.any (fun e => entryMatches e ch)
  else true

/-- Modelled from the spec: the Rate Limiter's state, a mapping from rate-limit
key to last-allowed timestamp (section 4.4, absent from the sources). -/
abbrev RateState := List (String × Nat)

/-- Modelled from the spec: `tryAcquire(key, now)` (section 4.4).  Succeeds
when there is no prior entry or `now - lastAllowed >= cooldown`, updating the
key's timestamp to `now`; otherwise fails and leaves the state unchanged. -/
def tryAcquire (cooldown : Nat) (st : RateState) (key : String) (now : Nat) :
    Bool × RateState :=
  match st.lookup key with
  | none => (true, (key, now) :: st)
  | some last =>
      if cooldown ≤ now - last then
        (true, (key, now) :: st.eraseP (fun p => p.1 == key))
      else (false, st)

/-- Modelled from the spec: the totals of the Statistics Record (section 3);
the per-rule/per-channel breakdowns and history are not needed by any claim. -/
structure Stats where
  matched : Nat
  alerts : Nat
  suppressed : Nat
  deriving DecidableEq, Repr

/-- The shared mutable state of the Decision Engine: rate-limiter map plus
statistics totals. -/
structure EngineState where
  rate : RateState
  stats : Stats

/-- Initial engine state: no rate-limit entries, zero counters. -/
def initState : EngineState :=
  { rate := [], stats := { matched := 0, alerts := 0, suppressed := 0 } }

/-- A normalized message event as consumed by the Decision Engine. -/
structure Event where
  channel : Channel
  text : String
  isMention : Bool
  isBot : Bool
  time : Nat

/-- Terminal state of a message's journey through the engine. -/
inductive Outcome where
  | dispatched : MatchReason → Outcome
  | suppressed : Outcome
  | ignored : Outcome
  deriving DecidableEq, Repr

/-- Modelled from the spec: the Decision Engine orchestration (section 4.6,
absent from the sources).  Bot messages (with ignore-bots) and filtered
channels are ignored with no statistics update; unmatched messages take no
further action; matched messages consult the rate limiter keyed by channel
identifier, record the outcome in the statistics, and dispatch when allowed. -/
def handle (rs : RuleSet) (cooldown : Nat) (s : EngineState) (ev : Event) :
    EngineState × Outcome :=
  if rs.ignoreBots && ev.isBot then (s, .ignored)
  else if ¬ allowed rs ev.channel then (s, .ignored)
  else
    match evaluate rs ev.text ev.isMention with
    | .noMatch => (s, .ignored)
    | r =>
        let (ok, rate') := tryAcquire cooldown s.rate ev.channel.id ev.time
        if ok then
          ({ rate := rate'
             stats := { matched := s.stats.matched + 1
                        alerts := s.stats.alerts + 1
                        suppressed := s.stats.suppressed } }, .dispatched r)
        else
          ({ rate := rate'
             stats := { matched := s.stats.matched + 1
                        alerts := s.stats.alerts
                        suppressed := s.stats.suppressed + 1 } }, .suppressed)

/-- Run the engine over a sequence of events, threading the state. -/
def processAll (rs : RuleSet) (cooldown : Nat) (s : EngineState)
    (evs : List Event) : EngineState :=
  evs.foldl (fun st ev => (handle rs cooldown st ev).1) s

/-- The statistics invariant: dispatched plus suppressed alerts account for
exactly the matched (channel-filter-passing) messages. -/
def statsInv (st : Stats) : Prop :=
  st.alerts + st.suppressed = st.matched

/-- The module state visible to `shouldAlert` in `src/index.js`: the only
module-level binding it reads is `alertKeywords`. -/
structure ModuleState where
  alertKeywords : List String
  deriving DecidableEq, Repr

/-- `shouldAlert` as a state transformer on the module state, mirroring that
its body (`src/index.js` lines 15-19) reads `alertKeywords` and contains no
assignment to any shared binding. -/
def shouldAlertRun (σ : ModuleState) (text : Option String)
    (mentions : List String) : Bool × ModuleState :=
  (shouldAlert σ.alertKeywords text mentions, σ)

/-- Modelled from the spec: the search predicate that the pattern
`room\s+\d+` of end-to-end scenario 2 compiles to — some suffix of the text
starts with `room`, then one or more whitespace characters, then a digit. -/
def roomSearch (s : String) : Bool :=
  s.data.tails.any fun suf =>
    match suf with
    | 'r' :: 'o' :: 'o' :: 'm' :: rest =>
        !(rest.takeWhile Char.isWhitespace).isEmpty &&
        (match rest.dropWhile Char.isWhitespace with
         | c :: _ => c.isDigit
         | [] => false)
    | _ => false

/-- Modelled from the spec: the search predicate that the pattern `a*`
compiles to.  Searching an ε-accepting regex succeeds on every string, the
empty string included (the match is the empty match). -/
def starSearch (_ : String) : Bool := true

/-! ### General lemmas -/

theorem includes_iff {haystack needle : String} :
    includes haystack needle = true ↔ needle.data <:+: haystack.data := by
  simp [includes]

theorem mem_parseKeywords_ne_empty {env : Option String} {k : String}
    (h : k ∈ parseKeywords env) : k ≠ "" := by
  have := List.mem_filter.mp h
  simpa using this.2

theorem find?_eq_get_of_first {α : Type} (p : α → Bool) (l : List α) (i : Nat)
    (hi : i < l.length) (hp : p (l.get ⟨i, hi⟩) = true)
    (hmin : ∀ j (hj : j < i), p (l.get ⟨j, Nat.lt_trans hj hi⟩) = false) :
    l.find? p = some (l.get ⟨i, hi⟩) := by
  induction l generalizing i with
  | nil => exact absurd hi (Nat.not_lt_zero i)
  | cons a tl ih =>
      cases i with
      | zero =>
          simp only [List.get] at hp
          simp [List.find?, hp]
      | succ j =>
          have ha : p a = false := hmin 0 (Nat.succ_pos j)
          have hi' : j < tl.length := Nat.lt_of_succ_lt_succ hi
          have := ih j hi' hp
            (fun m hm => hmin (m + 1) (Nat.succ_lt_succ hm))
          simp [List.find?, ha, this]

theorem handle_eq_of_matched (rs : RuleSet) (D : Nat) (s : EngineState)
    (ev : Event) (hbot : ev.isBot = false)
    (hall : allowed rs ev.channel = true)
    (hnm : evaluate rs ev.text ev.isMention ≠ .noMatch) :
    handle rs D s ev =
      (if (tryAcquire D s.rate ev.channel.id ev.time).1 then
        ({ rate := (tryAcquire D s.rate ev.channel.id ev.time).2
           stats := { matched := s.stats.matched + 1
                      alerts := s.stats.alerts + 1
                      suppressed := s.stats.suppressed } },
         .dispatched (evaluate rs ev.text ev.isMention))
      else
        ({ rate := (tryAcquire D s.rate ev.channel.id ev.time).2
           stats := { matched := s.stats.matched + 1
                      alerts := s.stats.alerts
                      suppressed := s.stats.suppressed + 1 } },
         .suppressed)) := by
  rcases hta : tryAcquire D s.rate ev.channel.id ev.time with ⟨ok, rate'⟩
  cases hev : evaluate rs ev.text ev.isMention with
  | noMatch => exact absurd hev hnm
  | mention => cases ok <;> simp [handle, hbot, hall, hev, hta]
  | keyword k => cases ok <;> simp [handle, hbot, hall, hev, hta]
  | pattern p => cases ok <;> simp [handle, hbot, hall, hev, hta]

/-! ### Claim theorems -/

/-- C1: whenever the mentions list is non-empty, `shouldAlert` returns true
immediately, for every keyword list and every text (including absent/empty
text); in the spec's matcher, a mention yields reason `mention` regardless of
the keyword and pattern configuration. -/
theorem mention_always_wins (kws : List String) (text : Option String)
    (mentions : List String) (rs : RuleSet) (t : String)
    (h : mentions ≠ []) :
    shouldAlert kws text mentions = true ∧ evaluate rs t true = .mention := by
  constructor
  · cases mentions with
    | nil => exact absurd rfl h
    | cons m ms => simp [shouldAlert]
  · simp [evaluate]

/-- Witness for C1 at a concrete input. -/
theorem mention_always_wins_witness :
    shouldAlert ["urgent"] none ["mention"] = true ∧
    evaluate ⟨["x"], [], [], [], false⟩ "" true = .mention :=
  mention_always_wins ["urgent"] none ["mention"]
    ⟨["x"], [], [], [], false⟩ "" (by decide)

/-- C2: for a non-mention message, `shouldAlert` returns true exactly when
some configured keyword occurs case-insensitively as a substring of the text;
in the spec's matcher the first keyword (in configured order) that matches is
the recorded reason. -/
theorem keyword_match_iff_first_reason (kws : List String) (text : Option String)
    (rs : RuleSet) (t : String) (i : Nat) (hi : i < rs.keywords.length)
    (hp : includes (toLower t) (toLower (rs.keywords.get ⟨i, hi⟩)) = true)
    (hmin : ∀ j (hj : j < i),
      includes (toLower t) (toLower (rs.keywords.get ⟨j, Nat.lt_trans hj hi⟩)) = false) :
    (shouldAlert kws text [] = true ↔
      ∃ k ∈ kws, (toLower k).data <:+: (toLower (text.getD "")).data) ∧
    evaluate rs t false = .keyword (rs.keywords.get ⟨i, hi⟩) := by
  constructor
  · have h0 : shouldAlert kws text [] =
        kws.any fun k => includes (toLower (text.getD "")) (toLower k) := rfl
    rw [h0, List.any_eq_true]
    exact exists_congr fun k => and_congr_right fun _ => includes_iff
  · have hf := find?_eq_get_of_first
      (fun k => includes (toLower t) (toLower k)) rs.keywords i hi hp hmin
    simp [evaluate, hf]

/-- Witness for C2: scenario 1, keyword list `["urgent"]`, text
`"This is URGENT please help"`. -/
theorem keyword_match_iff_first_reason_witness :
    (shouldAlert ["urgent"] (some "This is URGENT please help") [] = true ↔
      ∃ k ∈ ["urgent"],
        (toLower k).data <:+:
          (toLower ((some "This is URGENT please help").getD "")).data) ∧
    evaluate ⟨["urgent"], [], [], [], false⟩ "This is URGENT please help" false =
      .keyword ((["urgent"] : List String).get ⟨0, by decide⟩) :=
  keyword_match_iff_first_reason ["urgent"] (some "This is URGENT please help")
    ⟨["urgent"], [], [], [], false⟩ "This is URGENT please help" 0 (by decide)
    (by decide) (fun j hj => absurd hj (Nat.not_lt_zero j))

/-- C5: for a non-mention message where no keyword matches, the spec's matcher
returns the first matching pattern (in configured order) as the reason, and a
message matching a configured pattern is dispatched by the engine (channel
allowed, no prior cooldown entry). -/
theorem pattern_first_match_dispatch (rs : RuleSet) (t : String) (i : Nat)
    (hi : i < rs.patterns.length) (D : Nat) (ch : Channel) (time : Nat)
    (hkw : ∀ k ∈ rs.keywords, includes (toLower t) (toLower k) = false)
    (hp : (rs.patterns.get ⟨i, hi⟩).2 t = true)
    (hmin : ∀ j (hj : j < i), (rs.patterns.get ⟨j, Nat.lt_trans hj hi⟩).2 t = false)
    (hall : allowed rs ch = true) :
    evaluate rs t false = .pattern (rs.patterns.get ⟨i, hi⟩).1 ∧
    (handle rs D initState ⟨ch, t, false, false, time⟩).2 =
      .dispatched (.pattern (rs.patterns.get ⟨i, hi⟩).1) := by
  have hnone : rs.keywords.find? (fun k => includes (toLower t) (toLower k)) = none :=
    List.find?_eq_none.mpr fun k hk => by simp [hkw k hk]
  have hfp := find?_eq_get_of_first (fun p => p.2 t) rs.patterns i hi hp hmin
  have heval : evaluate rs t false = .pattern (rs.patterns.get ⟨i, hi⟩).1 := by
    simp [evaluate, hnone, hfp]
  refine ⟨heval, ?_⟩
  have hne : evaluate rs t false ≠ .noMatch := by simp [heval]
  have hh := handle_eq_of_matched rs D initState ⟨ch, t, false, false, time⟩
    rfl hall hne
  have hta : tryAcquire D initState.rate ch.id time = (true, [(ch.id, time)]) := rfl
  rw [hh]
  simp [hta, heval]

/-- Witness for C5: scenario 2, pattern `room\s+\d+` against
`"room 204 needs help"`, dispatched from the initial state. -/
theorem pattern_first_match_dispatch_witness :
    evaluate ⟨[], [("room", roomSearch)], [], [], false⟩ "room 204 needs help"
        false =
      .pattern (([("room", roomSearch)] :
        List (String × (String → Bool))).get ⟨0, by decide⟩).1 ∧
    (handle ⟨[], [("room", roomSearch)], [], [], false⟩ 5 initState
        ⟨⟨"C1", none⟩, "room 204 needs help", false, false, 0⟩).2 =
      .dispatched (.pattern (([("room", roomSearch)] :
        List (String × (String → Bool))).get ⟨0, by decide⟩).1) :=
  pattern_first_match_dispatch ⟨[], [("room", roomSearch)], [], [], false⟩
    "room 204 needs help" 0 (by decide) 5 ⟨"C1", none⟩ 0
    (fun k hk => absurd hk (List.not_mem_nil k))
    (by decide) (fun j hj => absurd hj (Nat.not_lt_zero j)) (by decide)

/-- C3: with cooldown `D`, of two matching allowed-channel messages sharing a
rate-limit key, the first is dispatched; the second is suppressed when the
separation `t` is below `D` and dispatched when `t ≥ D`.  Acquisition succeeds
iff there is no prior entry for the key or `now - lastAllowed ≥ D`, and the
timestamp is updated on success. -/
theorem cooldown_two_messages (rs : RuleSet) (D : Nat) (ch : Channel)
    (t1 t2 : String) (m1 m2 : Bool) (n t : Nat)
    (st : RateState) (key : String) (now : Nat)
    (h1 : evaluate rs t1 m1 ≠ .noMatch) (h2 : evaluate rs t2 m2 ≠ .noMatch)
    (hall : allowed rs ch = true) :
    ((handle rs D initState ⟨ch, t1, m1, false, n⟩).2 =
        .dispatched (evaluate rs t1 m1) ∧
      (t < D →
        (handle rs D (handle rs D initState ⟨ch, t1, m1, false, n⟩).1
            ⟨ch, t2, m2, false, n + t⟩).2 = .suppressed ∧
        (handle rs D (handle rs D initState ⟨ch, t1, m1, false, n⟩).1
            ⟨ch, t2, m2, false, n + t⟩).1.stats = ⟨2, 1, 1⟩) ∧
      (D ≤ t →
        (handle rs D (handle rs D initState ⟨ch, t1, m1, false, n⟩).1
            ⟨ch, t2, m2, false, n + t⟩).2 = .dispatched (evaluate rs t2 m2) ∧
        (handle rs D (handle rs D initState ⟨ch, t1, m1, false, n⟩).1
            ⟨ch, t2, m2, false, n + t⟩).1.stats = ⟨2, 2, 0⟩)) ∧
    ((tryAcquire D st key now).1 = true ↔
      st.lookup key = none ∨
        ∃ last, st.lookup key = some last ∧ D ≤ now - last) ∧
    ((tryAcquire D st key now).1 = true →
      (tryAcquire D st key now).2.lookup key = some now) := by
  have hta1 : tryAcquire D initState.rate ch.id n = (true, [(ch.id, n)]) := rfl
  have hh1 := handle_eq_of_matched rs D initState ⟨ch, t1, m1, false, n⟩
    rfl hall h1
  rw [hta1] at hh1
  simp only [if_true] at hh1
  have hs1 : (handle rs D initState ⟨ch, t1, m1, false, n⟩).1 =
      { rate := [(ch.id, n)], stats := ⟨1, 1, 0⟩ } := by
    rw [hh1]
    rfl
  have hlk : List.lookup ch.id [(ch.id, n)] = some n := by
    simp [List.lookup]
  have hh2 := handle_eq_of_matched rs D
    (handle rs D initState ⟨ch, t1, m1, false, n⟩).1
    ⟨ch, t2, m2, false, n + t⟩ rfl hall h2
  rw [hs1] at hh2
  have hta2 : tryAcquire D [(ch.id, n)] ch.id (n + t) =
      if D ≤ t then (true, [(ch.id, n + t)]) else (false, [(ch.id, n)]) := by
    simp [tryAcquire, hlk, Nat.add_sub_cancel_left, List.eraseP]
  refine ⟨⟨by rw [hh1], ?_, ?_⟩, ?_, ?_⟩
  · intro hlt
    have hnle : ¬ D ≤ t := Nat.not_le.mpr hlt
    rw [hta2, if_neg hnle] at hh2
    simp only [Prod.fst, show ((false, [(ch.id, n)]) : Bool × RateState).1 = false
      from rfl] at hh2
    simp at hh2
    rw [hs1, hh2]
    exact ⟨rfl, rfl⟩
  · intro hle
    rw [hta2, if_pos hle] at hh2
    simp at hh2
    rw [hs1, hh2]
    exact ⟨rfl, rfl⟩
  · unfold tryAcquire
    cases hl : st.lookup key with
    | none => simp
    | some last =>
        by_cases hD : D ≤ now - last
        · simp [hD]
        · simp [hD]
  · intro hacq
    unfold tryAcquire at hacq ⊢
    cases hl : st.lookup key with
    | none =>
        simp [List.lookup]
    | some last =>
        by_cases hD : D ≤ now - last
        · simp [hD, List.lookup]
        · exfalso
          rw [hl] at hacq
          simp [hD] at hacq

/-- Witness for C3: scenario 4 with cooldown 5, two matching messages in the
same channel 1 apart, plus the acquisition characterization at a concrete
state. -/
theorem cooldown_two_messages_witness :
    ((handle ⟨["urgent"], [], [], [], false⟩ 5 initState
        ⟨⟨"C1", none⟩, "urgent a", false, false, 0⟩).2 =
      .dispatched (evaluate ⟨["urgent"], [], [], [], false⟩ "urgent a" false) ∧
      (1 < 5 →
        (handle ⟨["urgent"], [], [], [], false⟩ 5
            (handle ⟨["urgent"], [], [], [], false⟩ 5 initState
              ⟨⟨"C1", none⟩, "urgent a", false, false, 0⟩).1
            ⟨⟨"C1", none⟩, "urgent b", false, false, 0 + 1⟩).2 = .suppressed ∧
        (handle ⟨["urgent"], [], [], [], false⟩ 5
            (handle ⟨["urgent"], [], [], [], false⟩ 5 initState
              ⟨⟨"C1", none⟩, "urgent a", false, false, 0⟩).1
            ⟨⟨"C1", none⟩, "urgent b", false, false, 0 + 1⟩).1.stats = ⟨2, 1, 1⟩) ∧
      (5 ≤ 1 →
        (handle ⟨["urgent"], [], [], [], false⟩ 5
            (handle ⟨["urgent"], [], [], [], false⟩ 5 initState
              ⟨⟨"C1", none⟩, "urgent a", false, false, 0⟩).1
            ⟨⟨"C1", none⟩, "urgent b", false, false, 0 + 1⟩).2 =
          .dispatched (evaluate ⟨["urgent"], [], [], [], false⟩ "urgent b" false) ∧
        (handle ⟨["urgent"], [], [], [], false⟩ 5
            (handle ⟨["urgent"], [], [], [], false⟩ 5 initState
              ⟨⟨"C1", none⟩, "urgent a", false, false, 0⟩).1
            ⟨⟨"C1", none⟩, "urgent b", false, false, 0 + 1⟩).1.stats = ⟨2, 2, 0⟩)) ∧
    ((tryAcquire 5 [("k", 3)] "k" 10).1 = true ↔
      List.lookup "k" [("k", 3)] = none ∨
        ∃ last, List.lookup "k" [("k", 3)] = some last ∧ 5 ≤ 10 - last) ∧
    ((tryAcquire 5 [("k", 3)] "k" 10).1 = true →
      (tryAcquire 5 [("k", 3)] "k" 10).2.lookup "k" = some 10) :=
  cooldown_two_messages ⟨["urgent"], [], [], [], false⟩ 5 ⟨"C1", none⟩
    "urgent a" "urgent b" false false 0 1 [("k", 3)] "k" 10
    (by decide) (by decide) (by decide)

/-- C4: a blocklist entry matching the channel (by identifier or name) rejects
it regardless of the allowlist, and such a message leaves the engine state
untouched (it never reaches the matcher); with no blocklist hit, a non-empty
allowlist must contain the channel and an empty allowlist admits it. -/
theorem blocklist_precedence (rs rsB : RuleSet) (ch : Channel) (e : String)
    (D : Nat) (s : EngineState) (ev : Event)
    (hb : e ∈ rs.blocklist) (hm : entryMatches e ch = true)
    (hch : ev.channel = ch)
    (hnb : ∀ x ∈ rsB.blocklist, entryMatches x ch = false) :
    allowed rs ch = false ∧
    handle rs D s ev = (s, .ignored) ∧
    (rsB.allowlist ≠ [] →
      allowed rsB ch = rsB.allowlist.any fun x => entryMatches x ch) ∧
    (rsB.allowlist = [] → allowed rsB ch = true) := by
  have hblock : rs.blocklist.any (fun x => entryMatches x ch) = true :=
    List.any_eq_true.mpr ⟨e, hb, hm⟩
  have hA : allowed rs ch = false := by simp [allowed, hblock]
  have hnb' : rsB.blocklist.any (fun x => entryMatches x ch) = false := by
    rw [List.any_eq_false]
    intro x hx
    simp [hnb x hx]
  refine ⟨hA, ?_, ?_, ?_⟩
  · unfold handle
    split
    · rfl
    · rw [hch, hA]
      simp
  · intro hne
    simp [allowed, hnb', hne]
  · intro hnil
    simp [allowed, hnb', hnil]

/-- Witness for C4: scenario 3, blocklist `["general"]` rejects channel
`general` even though the allowlist contains it, with no engine action. -/
theorem blocklist_precedence_witness :
    allowed ⟨[], [], ["general", "it-support"], ["general"], false⟩
        ⟨"C9", some "general"⟩ = false ∧
    handle ⟨[], [], ["general", "it-support"], ["general"], false⟩ 5 initState
        ⟨⟨"C9", some "general"⟩, "urgent", false, false, 0⟩ =
      (initState, .ignored) ∧
    ((["it-support"] : List String) ≠ [] →
      allowed ⟨[], [], ["it-support"], [], false⟩ ⟨"C9", some "general"⟩ =
        (["it-support"] : List String).any fun x =>
          entryMatches x ⟨"C9", some "general"⟩) ∧
    ((["it-support"] : List String) = [] →
      allowed ⟨[], [], ["it-support"], [], false⟩ ⟨"C9", some "general"⟩ = true) :=
  blocklist_precedence ⟨[], [], ["general", "it-support"], ["general"], false⟩
    ⟨[], [], ["it-support"], [], false⟩ ⟨"C9", some "general"⟩ "general" 5
    initState ⟨⟨"C9", some "general"⟩, "urgent", false, false, 0⟩
    (by decide) (by decide) rfl (by intro x hx; fin_cases hx)

theorem handle_preserves_statsInv (rs : RuleSet) (D : Nat) (s : EngineState)
    (ev : Event) (h : statsInv s.stats) :
    statsInv ((handle rs D s ev).1).stats := by
  unfold statsInv at h ⊢
  unfold handle
  repeat' split
  all_goals first
  | exact h
  | (dsimp only []; omega)

theorem processAll_preserves_statsInv (rs : RuleSet) (D : Nat)
    (evs : List Event) :
    ∀ s : EngineState, statsInv s.stats →
      statsInv (processAll rs D s evs).stats := by
  induction evs with
  | nil => intro s h; exact h
  | cons e es ih =>
      intro s h
      have hstep : processAll rs D s (e :: es) =
          processAll rs D ((handle rs D s e).1) es := by
        simp [processAll]
      rw [hstep]
      exact ih _ (handle_preserves_statsInv rs D s e h)

/-- C6: the statistics totals satisfy `alerts + suppressed = matches` for the
messages that pass the channel filter: the invariant is preserved by every
decision the engine records, and holds after processing any sequence of events
from the initial state. -/
theorem stats_totals_invariant (rs : RuleSet) (D : Nat) (s : EngineState)
    (ev : Event) (evs : List Event) (hinv : statsInv s.stats) :
    statsInv ((handle rs D s ev).1).stats ∧
    statsInv (processAll rs D initState evs).stats :=
  ⟨handle_preserves_statsInv rs D s ev hinv,
   processAll_preserves_statsInv rs D evs initState rfl⟩

/-- Witness for C6 at a concrete state and event sequence. -/
theorem stats_totals_invariant_witness :
    statsInv ((handle ⟨["urgent"], [], [], [], false⟩ 5
        ⟨[("C1", 2)], ⟨3, 2, 1⟩⟩
        ⟨⟨"C1", none⟩, "urgent now", false, false, 4⟩).1).stats ∧
    statsInv (processAll ⟨["urgent"], [], [], [], false⟩ 5 initState
        [⟨⟨"C1", none⟩, "urgent now", false, false, 4⟩,
         ⟨⟨"C1", none⟩, "urgent again", false, false, 5⟩]).stats :=
  stats_totals_invariant ⟨["urgent"], [], [], [], false⟩ 5
    ⟨[("C1", 2)], ⟨3, 2, 1⟩⟩ ⟨⟨"C1", none⟩, "urgent now", false, false, 4⟩
    [⟨⟨"C1", none⟩, "urgent now", false, false, 4⟩,
     ⟨⟨"C1", none⟩, "urgent again", false, false, 5⟩] rfl

/-- C9: when every entry of the `ALERT_KEYWORDS` value is blank (so parsing
trims and drops them all), the parsed keyword list is empty and no non-mention
message ever triggers an alert — `shouldAlert` is false and the `message`
handler takes no action. -/
theorem blank_keywords_no_alert (env : Option String) (text : Option String)
    (msg : SlackEvent)
    (h : ∀ p ∈ splitChar ',' (env.getD "").data [], trimChars p = []) :
    parseKeywords env = [] ∧
    shouldAlert (parseKeywords env) text [] = false ∧
    handleMessage (parseKeywords env) msg = none := by
  have hp : parseKeywords env = [] := by
    unfold parseKeywords
    rw [List.filter_eq_nil_iff]
    intro a ha
    rw [List.mem_map] at ha
    obtain ⟨l, hl, rfl⟩ := ha
    rw [List.mem_map] at hl
    obtain ⟨p, hpmem, rfl⟩ := hl
    simp [h p hpmem]
  refine ⟨hp, ?_, ?_⟩
  · rw [hp]
    rfl
  · rw [hp]
    cases msg with
    | mk ch text ts => cases text <;> simp [handleMessage, shouldAlert]

/-- Witness for C9: a configuration of blank and empty entries. -/
theorem blank_keywords_no_alert_witness :
    parseKeywords (some " ,  ,\t ") = [] ∧
    shouldAlert (parseKeywords (some " ,  ,\t ")) (some "urgent help") [] = false ∧
    handleMessage (parseKeywords (some " ,  ,\t "))
      ⟨"C1", some "urgent help", "1"⟩ = none :=
  blank_keywords_no_alert (some " ,  ,\t ") (some "urgent help")
    ⟨"C1", some "urgent help", "1"⟩ (by decide)

theorem includes_empty_eq_false {k : String} (hne : k ≠ "") :
    includes (toLower "") (toLower k) = false := by
  rw [Bool.eq_false_iff]
  intro hc
  have hinf := includes_iff.mp hc
  have : (toLower k).data = [] :=
    List.eq_nil_of_infix_nil (by simpa [toLower] using hinf)
  simp only [toLower, List.map_eq_nil_iff] at this
  exact hne (by cases k; simpa using congrArg String.mk this)

/-- Counterexample for C7 as frozen: empty text does not stay unmatched for
all pattern configurations — the pattern `a*`, whose compiled search predicate
accepts every string (an ε-accepting regex search always finds the empty
match), matches the empty text even though the mention flag is off. -/
theorem empty_text_pattern_counterexample :
    evaluate ⟨[], [("a*", starSearch)], [], [], false⟩ "" false =
      .pattern "a*" ∧
    evaluate ⟨[], [("a*", starSearch)], [], [], false⟩ "" false ≠ .noMatch :=
  ⟨by decide, by decide⟩

/-- C7 (amended): a message with empty text never matches when the mentions
list is empty, for every rule set produced by parsing the `ALERT_KEYWORDS`
configuration (whose entries are trimmed, with blank entries dropped); in the
spec's matcher, empty text stays unmatched for every configuration whose
keywords are non-blank and whose compiled patterns reject the empty string. -/
theorem empty_text_never_matches (env : Option String) (rs : RuleSet)
    (hk : ∀ k ∈ rs.keywords, k ≠ "")
    (hpat : ∀ p ∈ rs.patterns, p.2 "" = false) :
    shouldAlert (parseKeywords env) (some "") [] = false ∧
    shouldAlert (parseKeywords env) none [] = false ∧
    evaluate rs "" false = .noMatch := by
  have key : ∀ k ∈ parseKeywords env,
      includes (toLower "") (toLower k) = false :=
    fun k hk' => includes_empty_eq_false (mem_parseKeywords_ne_empty hk')
  have h0 : ∀ text : Option String,
      shouldAlert (parseKeywords env) text [] =
        (parseKeywords env).any fun k => includes (toLower (text.getD "")) (toLower k) :=
    fun _ => rfl
  refine ⟨?_, ?_, ?_⟩
  · rw [h0, List.any_eq_false]
    intro k hkm
    simp [key k hkm]
  · rw [h0, List.any_eq_false]
    intro k hkm
    simp [key k hkm]
  · have hkf : rs.keywords.find? (fun k => includes (toLower "") (toLower k)) =
        none :=
      List.find?_eq_none.mpr fun k hkm => by
        simp [includes_empty_eq_false (hk k hkm)]
    have hpf : rs.patterns.find? (fun p => p.2 "") = none :=
      List.find?_eq_none.mpr fun p hpm => by simp [hpat p hpm]
    simp [evaluate, hkf, hpf]

/-- Witness for C7 (amended): scenario-style configuration with keyword
`urgent` and pattern `room\s+\d+`, whose search predicate rejects the empty
string. -/
theorem empty_text_never_matches_witness :
    shouldAlert (parseKeywords (some "urgent,help")) (some "") [] = false ∧
    shouldAlert (parseKeywords (some "urgent,help")) none [] = false ∧
    evaluate ⟨["urgent"], [("room\\s+\\d+", roomSearch)], [], [], false⟩ ""
      false = .noMatch :=
  empty_text_never_matches (some "urgent,help")
    ⟨["urgent"], [("room\\s+\\d+", roomSearch)], [], [], false⟩
    (by decide) (by decide)

/-- C8: `shouldAlert` is deterministic and side-effect-free — run as a state
transformer over the module state it can see, it leaves that state unchanged,
its result depends only on the keyword list it reads (not on the rest of any
invocation context), and re-running it after a first run returns the same
result. -/
theorem shouldAlert_deterministic_pure (σ σ₁ σ₂ : ModuleState)
    (text : Option String) (mentions : List String)
    (h : σ₁.alertKeywords = σ₂.alertKeywords) :
    (shouldAlertRun σ text mentions).2 = σ ∧
    (shouldAlertRun σ₁ text mentions).1 = (shouldAlertRun σ₂ text mentions).1 ∧
    (shouldAlertRun (shouldAlertRun σ text mentions).2 text mentions).1 =
      (shouldAlertRun σ text mentions).1 := by
  refine ⟨rfl, ?_, rfl⟩
  simp [shouldAlertRun, h]

/-- Witness for C8 at a concrete input. -/
theorem shouldAlert_deterministic_pure_witness :
    (shouldAlertRun ⟨["urgent"]⟩ (some "hi") []).2 = ⟨["urgent"]⟩ ∧
    (shouldAlertRun ⟨["urgent"]⟩ (some "hi") []).1 =
      (shouldAlertRun ⟨["urgent"]⟩ (some "hi") []).1 ∧
    (shouldAlertRun (shouldAlertRun ⟨["urgent"]⟩ (some "hi") []).2
        (some "hi") []).1 =
      (shouldAlertRun ⟨["urgent"]⟩ (some "hi") []).1 :=
  shouldAlert_deterministic_pure ⟨["urgent"]⟩ ⟨["urgent"]⟩ ⟨["urgent"]⟩
    (some "hi") [] rfl

/-- C10: `shouldAlert` treats absent (`null`/`undefined`) text exactly as the
empty string, and the `message` handler takes no action on an event that
carries no `text` field. -/
theorem absent_text_total (kws : List String) (mentions : List String)
    (ch ts : String) :
    shouldAlert kws none mentions = shouldAlert kws (some "") mentions ∧
    handleMessage kws ⟨ch, none, ts⟩ = none :=
  ⟨rfl, rfl⟩

end Notifier
